import Mathlib

/-
Verification development for the FireBase-Auth repository's session and
reset-token lifecycle core.

The embedding models, from the TypeScript source:
  - the JWT codec built on jsonwebtoken (lib/utils/jwt-server.ts):
    a token is a record of its claims, registered claims (iss, aud, iat, exp)
    and the signing key; verification compares the key and checks expiry and
    issuer/audience, which is the observable behaviour of an unforgeable MAC
    (an idealisation that is collision-free and unforgeable);
  - the ResetTokenService (lib/services/reset-token-service.ts);
  - the mongoose User model with embedded session records and bcrypt-hashed
    tokens (lib/database/models/user.ts);
  - the UserService store layer (lib/database/services/user-service.ts),
    with the database as a list of user documents;
  - the env-validation module (lib/env.ts) with zod checks;
  - the HTTP route handlers for session create/refresh/logout and
    /api/user/me, as pure functions from request data, database state and
    oracles (Firebase verifier, mail sender) to a response and a new
    database state.

Time is a single Nat timeline (seconds); JS Date/epoch-ms values are mapped
onto it, which is sound because no modelled computation mixes units.
-/

namespace FBAuth

/-- Claims payload of a JWT as a closed record of the duck-typed JS object:
every claim key that any token family of this codebase uses, each optional. -/
structure Claims where
  uid : Option String := none
  email : Option String := none
  name : Option String := none
  provider : Option String := none
  photoURL : Option String := none
  sessionId : Option String := none
  userId : Option String := none
  type : Option String := none
deriving DecidableEq

/-- A signed token: claims plus the registered claims injected at signing
time and the signing key (the key field models the HMAC signature: a
verifier holding the same secret accepts, any other secret rejects). -/
structure Jwt where
  claims : Claims
  iss : Option String
  aud : Option String
  iat : Nat
  exp : Nat
  key : String
deriving DecidableEq

/-- Result of jwt.verify / jwt.decode: the full decoded payload. -/
structure DecodedJwt where
  claims : Claims
  iss : Option String
  aud : Option String
  iat : Nat
  exp : Nat
deriving DecidableEq

/-- jsonwebtoken option check: when the verifier requests an issuer or
audience, the token's corresponding registered claim must equal it;
when no value is requested, the claim is not checked. -/
def claimMatches (claim req : Option String) : Bool :=
  match req with
  | none => true
  | some r => claim == some r

/-- jwt.sign: embeds the claims, the requested issuer/audience, iat = now
and exp = now + expiresIn, under the given secret. -/
def jwtSign (c : Claims) (secret : String) (expiresInSec : Nat)
    (reqIss reqAud : Option String) (now : Nat) : Jwt :=
  { claims := c, iss := reqIss, aud := reqAud, iat := now,
    exp := now + expiresInSec, key := secret }

/-- jwt.verify: signature, expiry (valid iff now < exp), issuer and audience
are checked in one atomic step; any mismatch yields none. -/
def jwtVerify (t : Jwt) (secret : String) (reqIss reqAud : Option String)
    (now : Nat) : Option DecodedJwt :=
  if t.key == secret && decide (now < t.exp)
      && claimMatches t.iss reqIss && claimMatches t.aud reqAud then
    some { claims := t.claims, iss := t.iss, aud := t.aud, iat := t.iat, exp := t.exp }
  else none

/-- jwt.decode: unverified read of the payload (decodeJWT in jwt-server.ts). -/
def jwtDecode (t : Jwt) : DecodedJwt :=
  { claims := t.claims, iss := t.iss, aud := t.aud, iat := t.iat, exp := t.exp }

/-- JWT_EXPIRES_IN = "7d" from jwt-server.ts, in seconds. -/
def JWT_EXPIRES_IN_SEC : Nat := 7 * 24 * 60 * 60

/-- signJWT from jwt-server.ts: fixed issuer and audience, 7-day expiry. -/
def signJWT (c : Claims) (secret : String) (now : Nat) : Jwt :=
  jwtSign c secret JWT_EXPIRES_IN_SEC
    (some "firebase-auth-app") (some "firebase-auth-app-users") now

/-- verifyJWT from jwt-server.ts: verify against the same fixed issuer and
audience; returns none on any failure. -/
def verifyJWT (t : Jwt) (secret : String) (now : Nat) : Option DecodedJwt :=
  jwtVerify t secret (some "firebase-auth-app") (some "firebase-auth-app-users") now

/-- getJWTExpiration from jwt-server.ts: 7 days from now. -/
def getJWTExpiration (now : Nat) : Nat := now + 7 * 24 * 60 * 60

namespace ResetTokenService

/-- TOKEN_EXPIRY = "1h" from reset-token-service.ts, in seconds. -/
def TOKEN_EXPIRY_SEC : Nat := 3600

/-- generateResetToken: signs userId/email with the fixed
type = "password_reset" discriminator; no issuer or audience option. -/
def generateResetToken (userId email : String) (secret : String) (now : Nat) : Jwt :=
  jwtSign { userId := some userId, email := some email, type := some "password_reset" }
    secret TOKEN_EXPIRY_SEC none none now

/-- verifyResetToken: jwt.verify (signature + expiry, no issuer/audience
options) and then the purpose discriminator check; all-or-nothing. -/
def verifyResetToken (t : Jwt) (secret : String) (now : Nat) : Option DecodedJwt :=
  match jwtVerify t secret none none now with
  | none => none
  | some d => if d.claims.type == some "password_reset" then some d else none

end ResetTokenService

/-- A stored bcrypt hash: the salt and the value it was derived from.
Models bcrypt.hash as an idealised salted one-way hash: compareSync
succeeds exactly when the hash was derived from the given raw value
(collision-free, and the raw token is not recoverable by the model's
public operations). -/
structure BcryptHash where
  salt : Nat
  plain : Jwt
deriving DecidableEq

/-- bcrypt.hash(raw, 10) with an explicit salt. -/
def bcryptHash (raw : Jwt) (salt : Nat) : BcryptHash :=
  { salt := salt, plain := raw }

/-- bcrypt.compareSync(raw, stored). -/
def bcryptCompareSync (raw : Jwt) (h : BcryptHash) : Bool :=
  h.plain == raw

/-- SessionRecord subdocument from the user model. -/
structure SessionRecord where
  tokenHash : BcryptHash
  issuedAt : Nat
  expiresAt : Nat
  userAgent : Option String
  ip : Option String
deriving DecidableEq

/-- A User document (mongoose model): mongoId models the Mongo _id. -/
structure UserDoc where
  mongoId : String
  uid : String
  email : String
  name : Option String
  provider : String
  photoURL : Option String
  createdAt : Nat
  lastSeen : Nat
  sessions : List SessionRecord
deriving DecidableEq

/-- userSchema.methods.cleanExpiredSessions: keep records with
expiresAt > now. -/
def UserDoc.cleanExpiredSessions (u : UserDoc) (now : Nat) : UserDoc :=
  { u with sessions := u.sessions.filter (fun s => decide (now < s.expiresAt)) }

/-- userSchema.methods.addSession: hash the raw token, push the record,
clean expired records, update lastSeen. (The TS parameter is named
tokenHash but carries the raw token.) -/
def UserDoc.addSession (u : UserDoc) (tokenHash : Jwt) (expiresAt : Nat)
    (userAgent ip : Option String) (salt now : Nat) : UserDoc :=
  let pushed : UserDoc :=
    { u with sessions := u.sessions ++
        [{ tokenHash := bcryptHash tokenHash salt, issuedAt := now,
           expiresAt := expiresAt, userAgent := userAgent, ip := ip }] }
  let cleaned := pushed.cleanExpiredSessions now
  { cleaned with lastSeen := now }

/-- userSchema.methods.removeSession: drop every record whose stored hash
compares equal to the raw token; no-op when none matches. -/
def UserDoc.removeSession (u : UserDoc) (tokenHash : Jwt) : UserDoc :=
  { u with sessions := u.sessions.filter (fun s => !(bcryptCompareSync tokenHash s.tokenHash)) }

/-- userSchema.methods.validateSession: true iff some non-expired record's
hash matches the raw token. -/
def UserDoc.validateSession (u : UserDoc) (tokenHash : Jwt) (now : Nat) : Bool :=
  u.sessions.any (fun s => decide (now < s.expiresAt) && bcryptCompareSync tokenHash s.tokenHash)

/-- The credential store: the users collection. -/
abbrev DB := List UserDoc

/-- email.toLowerCase(): character-wise lowering, the behaviour of
String.toLower (String.map Char.toLower) in a kernel-computable form. -/
def toLowerStr (s : String) : String :=
  ⟨s.data.map Char.toLower⟩

namespace UserService

/-- UserService.findByUid: User.findOne on uid. -/
def findByUid (db : DB) (uid : String) : Option UserDoc :=
  db.find? (fun u => u.uid == uid)

/-- UserService.findByEmail: User.findOne on lowercased email. -/
def findByEmail (db : DB) (email : String) : Option UserDoc :=
  db.find? (fun u => u.email == toLowerStr email)

/-- Replace the first document with the given uid (the single-document
update performed by mongoose save / findOneAndUpdate). -/
def replaceFirst (db : DB) (uid : String) (u' : UserDoc) : DB :=
  match db with
  | [] => []
  | v :: rest => if v.uid == uid then u' :: rest else v :: replaceFirst rest uid u'

/-- The identity fields passed to UserService.upsertUser. -/
structure UpsertData where
  uid : String
  email : String
  name : Option String := none
  provider : String
  photoURL : Option String := none
deriving DecidableEq

/-- UserService.upsertUser: findOneAndUpdate on uid with upsert. On a hit,
set email (lowercased), name, provider, photoURL and lastSeen, leaving
mongoId, createdAt and sessions untouched; on a miss, insert a new document
with defaults (createdAt = now, sessions = [], freshId models the new _id). -/
def upsertUser (db : DB) (d : UpsertData) (now : Nat) (freshId : String) :
    DB × UserDoc :=
  match findByUid db d.uid with
  | some u =>
    let u' : UserDoc :=
      { u with
        uid := d.uid, email := toLowerStr d.email, name := d.name,
        provider := d.provider, photoURL := d.photoURL, lastSeen := now }
    (replaceFirst db d.uid u', u')
  | none =>
    let u : UserDoc :=
      { mongoId := freshId, uid := d.uid, email := toLowerStr d.email, name := d.name,
        provider := d.provider, photoURL := d.photoURL, createdAt := now,
        lastSeen := now, sessions := [] }
    (db ++ [u], u)

/-- UserService.addUserSession: throws "User not found" for an unknown uid,
else delegates to the document's addSession and persists. -/
def addUserSession (db : DB) (uid : String) (tokenHash : Jwt) (expiresAt : Nat)
    (userAgent ip : Option String) (salt now : Nat) : Except String DB :=
  match findByUid db uid with
  | none => .error "User not found"
  | some u => .ok (replaceFirst db uid (u.addSession tokenHash expiresAt userAgent ip salt now))

/-- UserService.removeUserSession: throws "User not found" for an unknown
uid, else delegates to the document's removeSession and persists. -/
def removeUserSession (db : DB) (uid : String) (tokenHash : Jwt) : Except String DB :=
  match findByUid db uid with
  | none => .error "User not found"
  | some u => .ok (replaceFirst db uid (u.removeSession tokenHash))

/-- UserService.validateUserSession: false for an unknown uid, else the
document's validateSession. -/
def validateUserSession (db : DB) (uid : String) (tokenHash : Jwt) (now : Nat) : Bool :=
  match findByUid db uid with
  | none => false
  | some u => u.validateSession tokenHash now

end UserService

/-- JS truthiness of an optional string env var: undefined and "" are falsy. -/
def jsTruthy (o : Option String) : Bool :=
  match o with
  | none => false
  | some s => !(s == "")

/-- JS a || b over optional strings ("" is falsy). -/
def jsOrElse (a b : Option String) : Option String :=
  match a with
  | some s => if s == "" then b else some s
  | none => b

/-- JS a || null over an optional string. -/
def jsOrNull (a : Option String) : Option String :=
  jsOrElse a none

/-- JS a || b with a plain-string default. -/
def jsOrStr (a : Option String) (b : String) : String :=
  match a with
  | some s => if s == "" then b else s
  | none => b

/-- The process environment fields read by lib/env.ts, each as the raw
optional string of process.env. -/
structure EnvInput where
  NODE_ENV : Option String := none
  VERCEL : Option String := none
  RAILWAY_ENVIRONMENT : Option String := none
  NEXT_PUBLIC_FIREBASE_API_KEY : Option String := none
  NEXT_PUBLIC_FIREBASE_AUTH_DOMAIN : Option String := none
  NEXT_PUBLIC_FIREBASE_PROJECT_ID : Option String := none
  NEXT_PUBLIC_FIREBASE_STORAGE_BUCKET : Option String := none
  NEXT_PUBLIC_FIREBASE_MESSAGING_SENDER_ID : Option String := none
  NEXT_PUBLIC_FIREBASE_APP_ID : Option String := none
  NEXT_PUBLIC_FIREBASE_MEASUREMENT_ID : Option String := none
  FIREBASE_SERVICE_ACCOUNT_KEY : Option String := none
  GOOGLE_CLIENT_ID : Option String := none
  GOOGLE_CLIENT_SECRET : Option String := none
  GITHUB_CLIENT_ID : Option String := none
  GITHUB_CLIENT_SECRET : Option String := none
  MONGODB_URI : Option String := none
  JWT_SECRET : Option String := none
  NEXT_PUBLIC_APP_URL : Option String := none
  EMAIL_HOST : Option String := none
  EMAIL_PORT : Option String := none
  EMAIL_USER : Option String := none
  EMAIL_PASS : Option String := none
  EMAIL_FROM_NAME : Option String := none
deriving DecidableEq

/-- The validated Env object of lib/env.ts (z.infer of envSchema). -/
structure Env where
  NEXT_PUBLIC_FIREBASE_API_KEY : String
  NEXT_PUBLIC_FIREBASE_AUTH_DOMAIN : String
  NEXT_PUBLIC_FIREBASE_PROJECT_ID : String
  NEXT_PUBLIC_FIREBASE_STORAGE_BUCKET : String
  NEXT_PUBLIC_FIREBASE_MESSAGING_SENDER_ID : String
  NEXT_PUBLIC_FIREBASE_APP_ID : String
  NEXT_PUBLIC_FIREBASE_MEASUREMENT_ID : Option String
  FIREBASE_SERVICE_ACCOUNT_KEY : String
  GOOGLE_CLIENT_ID : String
  GOOGLE_CLIENT_SECRET : String
  GITHUB_CLIENT_ID : String
  GITHUB_CLIENT_SECRET : String
  MONGODB_URI : String
  JWT_SECRET : String
  NEXT_PUBLIC_APP_URL : String
  EMAIL_HOST : String
  EMAIL_PORT : String
  EMAIL_USER : String
  EMAIL_PASS : String
  EMAIL_FROM_NAME : String
deriving DecidableEq

/-- isBuildTime from lib/env.ts. -/
def isBuildTime (e : EnvInput) : Bool :=
  (e.NODE_ENV == some "production") && !(jsTruthy e.VERCEL) && !(jsTruthy e.RAILWAY_ENVIRONMENT)

/-- zod z.string().min(n): present and at least n characters. -/
def zMinLen (n : Nat) (o : Option String) : Bool :=
  match o with
  | none => false
  | some s => decide (n ≤ s.length)

/-- Shallow model of the z.string().url() format check on the optional
NEXT_PUBLIC_APP_URL (absent means the zod default applies); URL
well-formedness is abstracted to an http(s)-scheme test, which no claim
depends on. -/
def zUrlOk (o : Option String) : Bool :=
  match o with
  | none => true
  | some s => s.startsWith "http://" || s.startsWith "https://"

/-- envSchema.parse succeeds: the conjunction of every field's zod check;
JWT_SECRET is the only field with a 32-character minimum. -/
def envSchemaOk (e : EnvInput) : Bool :=
  zMinLen 1 e.NEXT_PUBLIC_FIREBASE_API_KEY &&
  zMinLen 1 e.NEXT_PUBLIC_FIREBASE_AUTH_DOMAIN &&
  zMinLen 1 e.NEXT_PUBLIC_FIREBASE_PROJECT_ID &&
  zMinLen 1 e.NEXT_PUBLIC_FIREBASE_STORAGE_BUCKET &&
  zMinLen 1 e.NEXT_PUBLIC_FIREBASE_MESSAGING_SENDER_ID &&
  zMinLen 1 e.NEXT_PUBLIC_FIREBASE_APP_ID &&
  zMinLen 1 e.FIREBASE_SERVICE_ACCOUNT_KEY &&
  zMinLen 1 e.GOOGLE_CLIENT_ID &&
  zMinLen 1 e.GOOGLE_CLIENT_SECRET &&
  zMinLen 1 e.GITHUB_CLIENT_ID &&
  zMinLen 1 e.GITHUB_CLIENT_SECRET &&
  zMinLen 1 e.MONGODB_URI &&
  zMinLen 32 e.JWT_SECRET &&
  zUrlOk e.NEXT_PUBLIC_APP_URL &&
  zMinLen 1 e.EMAIL_USER &&
  zMinLen 1 e.EMAIL_PASS

/-- The Env produced by a successful envSchema.parse: raw values, with the
zod defaults for the optional fields. -/
def parsedEnv (e : EnvInput) : Env :=
  { NEXT_PUBLIC_FIREBASE_API_KEY := e.NEXT_PUBLIC_FIREBASE_API_KEY.getD "",
    NEXT_PUBLIC_FIREBASE_AUTH_DOMAIN := e.NEXT_PUBLIC_FIREBASE_AUTH_DOMAIN.getD "",
    NEXT_PUBLIC_FIREBASE_PROJECT_ID := e.NEXT_PUBLIC_FIREBASE_PROJECT_ID.getD "",
    NEXT_PUBLIC_FIREBASE_STORAGE_BUCKET := e.NEXT_PUBLIC_FIREBASE_STORAGE_BUCKET.getD "",
    NEXT_PUBLIC_FIREBASE_MESSAGING_SENDER_ID := e.NEXT_PUBLIC_FIREBASE_MESSAGING_SENDER_ID.getD "",
    NEXT_PUBLIC_FIREBASE_APP_ID := e.NEXT_PUBLIC_FIREBASE_APP_ID.getD "",
    NEXT_PUBLIC_FIREBASE_MEASUREMENT_ID := e.NEXT_PUBLIC_FIREBASE_MEASUREMENT_ID,
    FIREBASE_SERVICE_ACCOUNT_KEY := e.FIREBASE_SERVICE_ACCOUNT_KEY.getD "",
    GOOGLE_CLIENT_ID := e.GOOGLE_CLIENT_ID.getD "",
    GOOGLE_CLIENT_SECRET := e.GOOGLE_CLIENT_SECRET.getD "",
    GITHUB_CLIENT_ID := e.GITHUB_CLIENT_ID.getD "",
    GITHUB_CLIENT_SECRET := e.GITHUB_CLIENT_SECRET.getD "",
    MONGODB_URI := e.MONGODB_URI.getD "",
    JWT_SECRET := e.JWT_SECRET.getD "",
    NEXT_PUBLIC_APP_URL := e.NEXT_PUBLIC_APP_URL.getD "http://localhost:3000",
    EMAIL_HOST := e.EMAIL_HOST.getD "smtp.gmail.com",
    EMAIL_PORT := e.EMAIL_PORT.getD "587",
    EMAIL_USER := e.EMAIL_USER.getD "",
    EMAIL_PASS := e.EMAIL_PASS.getD "",
    EMAIL_FROM_NAME := e.EMAIL_FROM_NAME.getD "Firebase Auth App" }

/-- getDefaultEnv from lib/env.ts: each field falls back to a placeholder
with JS ||, so a configured value passes through unchecked. -/
def getDefaultEnv (e : EnvInput) : Env :=
  { NEXT_PUBLIC_FIREBASE_API_KEY := jsOrStr e.NEXT_PUBLIC_FIREBASE_API_KEY "build-time-placeholder",
    NEXT_PUBLIC_FIREBASE_AUTH_DOMAIN := jsOrStr e.NEXT_PUBLIC_FIREBASE_AUTH_DOMAIN "build-time-placeholder",
    NEXT_PUBLIC_FIREBASE_PROJECT_ID := jsOrStr e.NEXT_PUBLIC_FIREBASE_PROJECT_ID "build-time-placeholder",
    NEXT_PUBLIC_FIREBASE_STORAGE_BUCKET := jsOrStr e.NEXT_PUBLIC_FIREBASE_STORAGE_BUCKET "build-time-placeholder",
    NEXT_PUBLIC_FIREBASE_MESSAGING_SENDER_ID := jsOrStr e.NEXT_PUBLIC_FIREBASE_MESSAGING_SENDER_ID "build-time-placeholder",
    NEXT_PUBLIC_FIREBASE_APP_ID := jsOrStr e.NEXT_PUBLIC_FIREBASE_APP_ID "build-time-placeholder",
    NEXT_PUBLIC_FIREBASE_MEASUREMENT_ID := e.NEXT_PUBLIC_FIREBASE_MEASUREMENT_ID,
    FIREBASE_SERVICE_ACCOUNT_KEY := jsOrStr e.FIREBASE_SERVICE_ACCOUNT_KEY "\x7b\x7d",
    GOOGLE_CLIENT_ID := jsOrStr e.GOOGLE_CLIENT_ID "build-time-placeholder",
    GOOGLE_CLIENT_SECRET := jsOrStr e.GOOGLE_CLIENT_SECRET "build-time-placeholder",
    GITHUB_CLIENT_ID := jsOrStr e.GITHUB_CLIENT_ID "build-time-placeholder",
    GITHUB_CLIENT_SECRET := jsOrStr e.GITHUB_CLIENT_SECRET "build-time-placeholder",
    MONGODB_URI := jsOrStr e.MONGODB_URI "mongodb://localhost:27017/firebase-auth-app",
    JWT_SECRET := jsOrStr e.JWT_SECRET "development-jwt-secret-at-least-32-characters-long-for-build",
    NEXT_PUBLIC_APP_URL := jsOrStr e.NEXT_PUBLIC_APP_URL "http://localhost:3000",
    EMAIL_HOST := jsOrStr e.EMAIL_HOST "smtp.gmail.com",
    EMAIL_PORT := jsOrStr e.EMAIL_PORT "587",
    EMAIL_USER := jsOrStr e.EMAIL_USER "build-time-placeholder",
    EMAIL_PASS := jsOrStr e.EMAIL_PASS "build-time-placeholder",
    EMAIL_FROM_NAME := jsOrStr e.EMAIL_FROM_NAME "Firebase Auth App" }

/-- Outcome of environment validation at startup: a usable Env, or the
thrown Error("Environment validation failed: ...") that aborts startup. -/
inductive EnvResult where
  | ok (e : Env)
  | startupFailure
deriving DecidableEq

/-- validateEnv from lib/env.ts: skip validation at build time; on a parse
failure, throw only in production, else warn and run on getDefaultEnv. -/
def validateEnv (e : EnvInput) : EnvResult :=
  if isBuildTime e then .ok (getDefaultEnv e)
  else if envSchemaOk e then .ok (parsedEnv e)
  else if e.NODE_ENV == some "production" then .startupFailure
  else .ok (getDefaultEnv e)

/-- A decoded Firebase ID token as consumed by the routes (uid, email,
name, picture and firebase.sign_in_provider). -/
structure DecodedIdToken where
  uid : String
  email : Option String := none
  name : Option String := none
  picture : Option String := none
  signInProvider : Option String := none
deriving DecidableEq

/-- The user object serialised into route responses. -/
structure UserView where
  uid : String
  email : String
  name : Option String
  provider : String
  photoURL : Option String
  lastSeen : Option Nat := none
deriving DecidableEq

/-- A route response: HTTP status plus the JSON body fields the routes
emit (success, error, message, user, source, fallback). -/
structure ApiResponse where
  status : Nat
  success : Bool
  error : Option String := none
  message : Option String := none
  user : Option UserView := none
  source : Option String := none
  fallback : Bool := false
deriving DecidableEq

/-- The five-field user view of the session, refresh and logout routes. -/
def toUserView (u : UserDoc) : UserView :=
  { uid := u.uid, email := u.email, name := u.name, provider := u.provider,
    photoURL := u.photoURL }

/-- The six-field user view of /api/user/me (adds lastSeen). -/
def toUserViewWithLastSeen (u : UserDoc) : UserView :=
  { toUserView u with lastSeen := some u.lastSeen }

/-- getProviderFromToken from the session route: map the Firebase
sign-in-provider domain to the provider enum, defaulting to email
(a falsy provider string also defaults to email, as in JS). -/
def getProviderFromToken (t : DecodedIdToken) : String :=
  match t.signInProvider with
  | some p =>
    if p == "" then "email"
    else if p == "google.com" then "google"
    else if p == "github.com" then "github"
    else "email"
  | none => "email"

/-- email.split("@")[0]. -/
def emailLocalPart (e : String) : String :=
  (e.splitOn "@").headD ""

/-- userData.name in the session route:
decodedToken.name || decodedToken.email?.split("@")[0] || null. -/
def sessionUserName (t : DecodedIdToken) : Option String :=
  jsOrNull (jsOrElse t.name (t.email.map emailLocalPart))

/-- payload.uid read off a decoded session JWT (present on every token the
app signs). -/
def claimUid (c : Claims) : String :=
  c.uid.getD ""

/-- handleSessionFallback from the session route: verify the session JWT,
confirm the record is live in the store, load the user, and answer with the
fallback flag set; any failure yields none. -/
def handleSessionFallback (sessionToken : Jwt) (db : DB) (secret : String)
    (now : Nat) : Option ApiResponse :=
  match verifyJWT sessionToken secret now with
  | none => none
  | some p =>
    if UserService.validateUserSession db (claimUid p.claims) sessionToken now then
      match UserService.findByUid db (claimUid p.claims) with
      | none => none
      | some u =>
        some { status := 200, success := true, user := some (toUserView u), fallback := true }
    else none

/-- POST /api/auth/session: verify the Firebase assertion via the fbVerify
oracle; on failure fall back to an existing session cookie, else 401; on
success upsert the user, mint and persist a fresh session token. -/
def sessionPOST (fbVerify : String → Option DecodedIdToken) (idToken : String)
    (cookie : Option Jwt) (db : DB) (secret : String) (now salt : Nat)
    (sessionId : String) (userAgent ip : Option String) (freshId : String) :
    ApiResponse × DB :=
  match fbVerify idToken with
  | none =>
    match cookie with
    | some tok =>
      match handleSessionFallback tok db secret now with
      | some r => (r, db)
      | none => ({ status := 401, success := false, error := some "Authentication failed" }, db)
    | none => ({ status := 401, success := false, error := some "Authentication failed" }, db)
  | some d =>
    let userData : UserService.UpsertData :=
      { uid := d.uid, email := jsOrStr d.email "", name := sessionUserName d,
        provider := getProviderFromToken d, photoURL := jsOrNull d.picture }
    let upserted := UserService.upsertUser db userData now freshId
    let u := upserted.2
    let jwtPayload : Claims :=
      { uid := some u.uid, email := some u.email, name := u.name,
        provider := some u.provider, photoURL := u.photoURL,
        sessionId := some sessionId }
    let sessionToken := signJWT jwtPayload secret now
    match UserService.addUserSession upserted.1 u.uid sessionToken
        (getJWTExpiration now) userAgent ip salt now with
    | .error _ => ({ status := 500, success := false, error := some "Internal server error" }, upserted.1)
    | .ok db2 => ({ status := 200, success := true, user := some (toUserView u) }, db2)

/-- POST /api/auth/refresh-session: a failed assertion is terminal (401)
before the cookie is even consulted; with a verified assertion the old
record is removed best-effort (errors swallowed), then a new session is
minted and persisted. -/
def refreshPOST (fbVerify : String → Option DecodedIdToken) (idToken : String)
    (cookie : Option Jwt) (db : DB) (secret : String) (now salt : Nat)
    (sessionId : String) (userAgent ip : Option String) : ApiResponse × DB :=
  match fbVerify idToken with
  | none => ({ status := 401, success := false, error := some "Invalid ID token" }, db)
  | some d =>
    let db1 :=
      match cookie with
      | none => db
      | some oldTok =>
        match verifyJWT oldTok secret now with
        | none => db
        | some oldP =>
          match UserService.removeUserSession db (claimUid oldP.claims) oldTok with
          | .ok db' => db'
          | .error _ => db
    let jwtPayload : Claims :=
      { uid := some d.uid, email := some (jsOrStr d.email ""), sessionId := some sessionId }
    let sessionToken := signJWT jwtPayload secret now
    match UserService.addUserSession db1 d.uid sessionToken
        (getJWTExpiration now) userAgent ip salt now with
    | .error _ => ({ status := 500, success := false, error := some "Internal server error" }, db1)
    | .ok db2 =>
      match UserService.findByUid db2 d.uid with
      | none => ({ status := 404, success := false, error := some "User not found" }, db2)
      | some u => ({ status := 200, success := true, user := some (toUserView u) }, db2)

/-- POST /api/auth/logout: best-effort removal of the cookie's record (any
failure logged and swallowed), always answering success and clearing the
cookie. -/
def logoutPOST (cookie : Option Jwt) (db : DB) (secret : String) (now : Nat) :
    ApiResponse × DB :=
  match cookie with
  | none => ({ status := 200, success := true, message := some "Logged out successfully" }, db)
  | some tok =>
    match verifyJWT tok secret now with
    | none => ({ status := 200, success := true, message := some "Logged out successfully" }, db)
    | some p =>
      match UserService.removeUserSession db (claimUid p.claims) tok with
      | .ok db' => ({ status := 200, success := true, message := some "Logged out successfully" }, db')
      | .error _ => ({ status := 200, success := true, message := some "Logged out successfully" }, db)

/-- GET /api/user/me: a bearer Firebase ID token is tried first (bypassing
the session store); otherwise the session cookie is verified by the codec
and then confirmed live in the store before the user is returned. -/
def userMeGET (fbVerify : String → Option DecodedIdToken)
    (authIdToken : Option String) (cookie : Option Jwt) (db : DB)
    (secret : String) (now : Nat) : ApiResponse :=
  let firebasePath : Option ApiResponse :=
    match authIdToken with
    | none => none
    | some idt =>
      match fbVerify idt with
      | none => none
      | some d =>
        match UserService.findByUid db d.uid with
        | none => none
        | some u =>
          some { status := 200, success := true,
                 user := some (toUserViewWithLastSeen u), source := some "firebase" }
  match firebasePath with
  | some r => r
  | none =>
    match cookie with
    | none => { status := 401, success := false, error := some "No authentication found" }
    | some tok =>
      match verifyJWT tok secret now with
      | none => { status := 401, success := false, error := some "Invalid session" }
      | some p =>
        if UserService.validateUserSession db (claimUid p.claims) tok now then
          match UserService.findByUid db (claimUid p.claims) with
          | none => { status := 404, success := false, error := some "User not found" }
          | some u =>
            { status := 200, success := true,
              user := some (toUserViewWithLastSeen u), source := some "database" }
        else { status := 401, success := false, error := some "Session expired or invalid" }

/-- The {success, message} object returned by the reset-token service. -/
structure ResetResponse where
  success : Bool
  message : String
deriving DecidableEq

namespace ResetTokenService

/-- createResetRequest: look the user up by email; an unknown email gets
its own distinct failure message; otherwise mint a token for the user's
Mongo id and email, hand off to the mail-send oracle, and report based on
the mail result. -/
def createResetRequest (db : DB) (email : String) (secret : String) (now : Nat)
    (sendPasswordResetEmail : String → Jwt → String → Bool) : ResetResponse :=
  match UserService.findByEmail db email with
  | none => { success := false, message := "No account found with this email address" }
  | some user =>
    let resetToken := generateResetToken user.mongoId user.email secret now
    if sendPasswordResetEmail user.email resetToken (jsOrStr user.name user.email) then
      { success := true, message := "Password reset email sent successfully" }
    else
      { success := false, message := "Failed to send reset email. Please try again." }

end ResetTokenService

/-- Number of stored user documents carrying a given uid. -/
def countUid (db : DB) (uid : String) : Nat :=
  (db.filter (fun v => v.uid == uid)).length

lemma any_over_filter_excl {α : Type} (l : List α) (c e : α → Bool) :
    (l.filter (fun a => !(c a))).any (fun a => e a && c a) = false := by
  rw [Bool.eq_false_iff]
  intro h
  rcases List.any_eq_true.mp h with ⟨x, hx, hpx⟩
  rcases List.mem_filter.mp hx with ⟨_, hnc⟩
  simp only [Bool.not_eq_true'] at hnc
  simp only [Bool.and_eq_true] at hpx
  rw [hnc] at hpx
  exact Bool.false_ne_true hpx.2

lemma validateSession_removeSession (u : UserDoc) (tok : Jwt) (now : Nat) :
    (u.removeSession tok).validateSession tok now = false := by
  unfold UserDoc.removeSession UserDoc.validateSession
  exact any_over_filter_excl u.sessions
    (fun s => bcryptCompareSync tok s.tokenHash) (fun s => decide (now < s.expiresAt))

lemma findByUid_some_uid {db : DB} {uid : String} {u : UserDoc}
    (h : UserService.findByUid db uid = some u) : u.uid = uid := by
  have := List.find?_some h
  simpa using this

lemma findByUid_replaceFirst {db : DB} {uid : String} {u : UserDoc} (u' : UserDoc)
    (h : UserService.findByUid db uid = some u) (h' : u'.uid = uid) :
    UserService.findByUid (UserService.replaceFirst db uid u') uid = some u' := by
  induction db with
  | nil => simp [UserService.findByUid] at h
  | cons v rest ih =>
    by_cases hv : (v.uid == uid) = true
    · unfold UserService.replaceFirst
      rw [if_pos hv]
      unfold UserService.findByUid
      rw [List.find?_cons_of_pos _ (by simpa using h')]
    · unfold UserService.replaceFirst
      rw [if_neg hv]
      unfold UserService.findByUid
      rw [List.find?_cons_of_neg _ (by simpa using hv)]
      refine ih ?_
      unfold UserService.findByUid at h
      rwa [List.find?_cons_of_neg _ (by simpa using hv)] at h

lemma find?_append_singleton {α : Type} (l : List α) (p : α → Bool) (x : α)
    (h : ∀ a ∈ l, ¬ p a = true) (hx : p x = true) : (l ++ [x]).find? p = some x := by
  induction l with
  | nil => simpa using List.find?_cons_of_pos ([] : List α) hx
  | cons v rest ih =>
    rw [List.cons_append, List.find?_cons_of_neg _ (h v (by simp))]
    exact ih (fun a ha => h a (by simp [ha]))

lemma findByUid_append_fresh {db : DB} {uid : String} (u : UserDoc)
    (h : UserService.findByUid db uid = none) (hu : u.uid = uid) :
    UserService.findByUid (db ++ [u]) uid = some u := by
  unfold UserService.findByUid at h ⊢
  exact find?_append_singleton db _ u (List.find?_eq_none.mp h) (by simpa using hu)

lemma countUid_append_fresh {db : DB} {uid : String} (u : UserDoc)
    (h : UserService.findByUid db uid = none) (hu : u.uid = uid) :
    countUid (db ++ [u]) uid = 1 := by
  have hall := List.find?_eq_none.mp h
  unfold countUid
  rw [List.filter_append, List.filter_eq_nil_iff.mpr hall]
  simp [hu]

lemma countUid_replaceFirst (db : DB) (uid : String) (u' : UserDoc) (hu : u'.uid = uid) :
    countUid (UserService.replaceFirst db uid u') uid = countUid db uid := by
  induction db with
  | nil => rfl
  | cons v rest ih =>
    unfold UserService.replaceFirst
    by_cases hv : (v.uid == uid) = true
    · rw [if_pos hv]
      unfold countUid
      rw [List.filter_cons, List.filter_cons, hv, if_pos rfl]
      simp [hu]
    · rw [if_neg hv]
      unfold countUid
      rw [List.filter_cons, List.filter_cons]
      have hv' : (v.uid == uid) = false := by simpa using hv
      rw [hv']
      simpa [countUid] using ih

lemma validateSession_addSession (u : UserDoc) (tok : Jwt) (expiresAt : Nat)
    (ua ip : Option String) (salt now : Nat) (h : now < expiresAt) :
    (u.addSession tok expiresAt ua ip salt now).validateSession tok now = true := by
  unfold UserDoc.addSession UserDoc.cleanExpiredSessions UserDoc.validateSession
  refine List.any_eq_true.mpr ?_
  refine ⟨{ tokenHash := bcryptHash tok salt, issuedAt := now, expiresAt := expiresAt,
            userAgent := ua, ip := ip }, ?_, ?_⟩
  · exact List.mem_filter.mpr ⟨List.mem_append_right _ (by simp), by simp [h]⟩
  · simp [h, bcryptCompareSync, bcryptHash]

lemma addSession_uid (u : UserDoc) (tok : Jwt) (expiresAt : Nat)
    (ua ip : Option String) (salt now : Nat) :
    (u.addSession tok expiresAt ua ip salt now).uid = u.uid := rfl

lemma removeSession_uid (u : UserDoc) (tok : Jwt) :
    (u.removeSession tok).uid = u.uid := rfl

/-- Concrete fixture: a 32-character signing secret. -/
def wSecret : String := "0123456789abcdef0123456789abcdef"

/-- Concrete fixture: a session claims payload. -/
def wClaims : Claims :=
  { uid := some "u1", email := some "a@x.com", sessionId := some "s1" }

/-- Concrete fixture: the session token minted from wClaims at t = 1000. -/
def wToken : Jwt := signJWT wClaims wSecret 1000

/-- Concrete fixture: the decoded form of wToken. -/
def wDecoded : DecodedJwt :=
  { claims := wClaims, iss := some "firebase-auth-app",
    aud := some "firebase-auth-app-users", iat := 1000,
    exp := 1000 + JWT_EXPIRES_IN_SEC }

/-- Concrete fixture: the stored session record for wToken. -/
def wRecord : SessionRecord :=
  { tokenHash := bcryptHash wToken 5, issuedAt := 1000,
    expiresAt := 1000 + JWT_EXPIRES_IN_SEC, userAgent := none, ip := none }

/-- Concrete fixture: a stored user holding the wToken session. -/
def wUser : UserDoc :=
  { mongoId := "m1", uid := "u1", email := "a@x.com", name := none,
    provider := "email", photoURL := none, createdAt := 0, lastSeen := 1000,
    sessions := [wRecord] }

/-- Concrete fixture: the store with just wUser. -/
def wDb : DB := [wUser]

/-- Concrete fixture: the store after wToken's record was removed. -/
def wDbRemoved : DB := [{ wUser with sessions := [] }]

/-- C3: verifying a token produced by signing any claims payload with any
secret of at least 32 characters returns exactly the original claims,
together with only the injected issuer, audience, issued-at and expiry. -/
theorem c3_codec_roundtrip (c : Claims) (secret : String) (now : Nat)
    (h : 32 ≤ secret.length) :
    verifyJWT (signJWT c secret now) secret now
      = some { claims := c, iss := some "firebase-auth-app",
               aud := some "firebase-auth-app-users", iat := now,
               exp := now + JWT_EXPIRES_IN_SEC } := by
  unfold verifyJWT signJWT jwtVerify jwtSign claimMatches
  simp [JWT_EXPIRES_IN_SEC]

/-- Witness for C3 at the concrete fixture payload and secret. -/
theorem c3_codec_roundtrip_witness :
    verifyJWT (signJWT wClaims wSecret 1000) wSecret 1000
      = some { claims := wClaims, iss := some "firebase-auth-app",
               aud := some "firebase-auth-app-users", iat := 1000,
               exp := 1000 + JWT_EXPIRES_IN_SEC } :=
  c3_codec_roundtrip wClaims wSecret 1000 (by decide)

/-- C4: verifyResetToken returns Invalid (none) for every token whose type
claim is not exactly "password_reset", even a validly signed unexpired one;
and a token it accepts passed the signature, expiry and purpose checks
together, returning the token's own claims. -/
theorem c4_reset_purpose_isolation (t t2 : Jwt) (secret : String)
    (now now2 : Nat) (d : DecodedJwt)
    (h1 : t.claims.type ≠ some "password_reset")
    (h2 : ResetTokenService.verifyResetToken t2 secret now2 = some d) :
    ResetTokenService.verifyResetToken t secret now = none
    ∧ t2.key = secret ∧ now2 < t2.exp
    ∧ t2.claims.type = some "password_reset" ∧ d.claims = t2.claims := by
  have hrej : ResetTokenService.verifyResetToken t secret now = none := by
    unfold ResetTokenService.verifyResetToken jwtVerify
    by_cases hb : (t.key == secret && decide (now < t.exp)
        && claimMatches t.iss none && claimMatches t.aud none) = true
    · rw [if_pos hb]
      have ht : (t.claims.type == some "password_reset") = false := by
        simpa using h1
      simp [ht]
    · rw [if_neg hb]
  refine ⟨hrej, ?_⟩
  unfold ResetTokenService.verifyResetToken at h2
  rcases hv : jwtVerify t2 secret none none now2 with _ | d0
  · rw [hv] at h2; exact absurd h2 (by simp)
  · rw [hv] at h2
    dsimp only at h2
    by_cases ht : (d0.claims.type == some "password_reset") = true
    · rw [if_pos ht] at h2
      have hd : d = d0 := (Option.some.inj h2).symm
      unfold jwtVerify at hv
      by_cases hb : (t2.key == secret && decide (now2 < t2.exp)
          && claimMatches t2.iss none && claimMatches t2.aud none) = true
      · rw [if_pos hb] at hv
        have hd0 := Option.some.inj hv
        simp only [Bool.and_eq_true] at hb
        refine ⟨by simpa using hb.1.1.1, by simpa using hb.1.1.2, ?_, ?_⟩
        · have : d0.claims = t2.claims := by rw [← hd0]
          rw [← this]
          simpa using ht
        · rw [hd, ← hd0]
      · rw [if_neg hb] at hv; exact absurd hv (by simp)
    · rw [if_neg ht] at h2; exact absurd h2 (by simp)

/-- Witness for C4: the session-token fixture (signed with the same secret,
unexpired, but with no password-reset type claim) is rejected, while a
freshly generated reset token is accepted. -/
theorem c4_reset_purpose_isolation_witness :
    ResetTokenService.verifyResetToken wToken wSecret 1000 = none := by
  have h := c4_reset_purpose_isolation wToken
    (ResetTokenService.generateResetToken "m1" "a@x.com" wSecret 0) wSecret 1000 10
    { claims := { userId := some "m1", email := some "a@x.com",
                  type := some "password_reset" },
      iss := none, aud := none, iat := 0, exp := 3600 }
    (by decide) (by rfl)
  exact h.1

/-- C9: removeSession on a user none of whose stored records matches the
token is a no-op; removing twice equals removing once; and the logout route
always answers 200 success, so a second logout with the same token never
errors. -/
theorem c9_remove_session_idempotent (u u2 : UserDoc) (tok tok2 : Jwt)
    (cookie : Option Jwt) (db : DB) (secret : String) (now : Nat)
    (h : ∀ r ∈ u.sessions, bcryptCompareSync tok r.tokenHash = false) :
    u.removeSession tok = u
    ∧ (u2.removeSession tok2).removeSession tok2 = u2.removeSession tok2
    ∧ (logoutPOST cookie db secret now).1.success = true
    ∧ (logoutPOST cookie db secret now).1.status = 200 := by
  refine ⟨?_, ?_, ?_⟩
  · unfold UserDoc.removeSession
    have hf : u.sessions.filter (fun s => !(bcryptCompareSync tok s.tokenHash)) = u.sessions :=
      List.filter_eq_self.mpr (fun r hr => by simp [h r hr])
    rw [hf]
  · unfold UserDoc.removeSession
    rw [List.filter_filter]
    simp [Bool.and_self]
  · rcases cookie with _ | tok3
    · exact ⟨rfl, rfl⟩
    · rcases hcv : verifyJWT tok3 secret now with _ | p
      · simp [logoutPOST, hcv]
      · rcases hrm : UserService.removeUserSession db (claimUid p.claims) tok3 with msg | db'
        · simp [logoutPOST, hcv, hrm]
        · simp [logoutPOST, hcv, hrm]

/-- Witness for C9 at the fixture user and a non-matching token. -/
theorem c9_remove_session_idempotent_witness :
    wUser.removeSession (signJWT { uid := some "u2" } wSecret 1000) = wUser := by
  have h := c9_remove_session_idempotent wUser wUser
    (signJWT { uid := some "u2" } wSecret 1000) wToken none wDb wSecret 1000
    (by decide)
  exact h.1

/-- C10: for a uid with no stored user record, addUserSession and
removeUserSession reject with the "User not found" error, while
validateUserSession returns false without erroring. -/
theorem c10_unknown_uid_behavior (db : DB) (uid : String) (tok : Jwt)
    (expiresAt : Nat) (ua ip : Option String) (salt now : Nat)
    (h : UserService.findByUid db uid = none) :
    UserService.addUserSession db uid tok expiresAt ua ip salt now = .error "User not found"
    ∧ UserService.removeUserSession db uid tok = .error "User not found"
    ∧ UserService.validateUserSession db uid tok now = false := by
  unfold UserService.addUserSession UserService.removeUserSession UserService.validateUserSession
  rw [h]
  exact ⟨rfl, rfl, rfl⟩

/-- Witness for C10 on the empty store. -/
theorem c10_unknown_uid_behavior_witness :
    UserService.addUserSession [] "ghost" wToken 2000 none none 5 1000
      = .error "User not found" := by
  have h := c10_unknown_uid_behavior [] "ghost" wToken 2000 none none 5 1000 rfl
  exact h.1

/-- C1: a session token whose signature verifies and whose expiry has not
passed, but whose SessionRecord was removed via removeSession, fails store
validation, and the session path of GET /api/user/me answers 401
Unauthenticated: the store lookup, not the signature, decides liveness. -/
theorem c1_revocation_wins_over_signature
    (fbVerify : String → Option DecodedIdToken) (db db' : DB) (tok : Jwt)
    (secret : String) (now : Nat) (p : DecodedJwt)
    (h1 : verifyJWT tok secret now = some p)
    (h2 : UserService.removeUserSession db (claimUid p.claims) tok = .ok db') :
    UserService.validateUserSession db' (claimUid p.claims) tok now = false
    ∧ userMeGET fbVerify none (some tok) db' secret now
        = { status := 401, success := false, error := some "Session expired or invalid" } := by
  unfold UserService.removeUserSession at h2
  rcases hf : UserService.findByUid db (claimUid p.claims) with _ | u
  · rw [hf] at h2; exact absurd h2 (by simp)
  · rw [hf] at h2
    dsimp only at h2
    have hdb' : db' = UserService.replaceFirst db (claimUid p.claims) (u.removeSession tok) :=
      (Except.ok.inj h2).symm
    have hval : UserService.validateUserSession db' (claimUid p.claims) tok now = false := by
      rw [hdb']
      unfold UserService.validateUserSession
      rw [findByUid_replaceFirst _ hf (by rw [removeSession_uid]; exact findByUid_some_uid hf)]
      exact validateSession_removeSession u tok now
    exact ⟨hval, by simp [userMeGET, h1, hval]⟩

/-- Witness for C1: the fixture token still verifies at t = 1000 but its
record is gone from the store, so validation fails. -/
theorem c1_revocation_wins_over_signature_witness :
    UserService.validateUserSession wDbRemoved "u1" wToken 1000 = false := by
  have h := c1_revocation_wins_over_signature (fun _ => none) wDb wDbRemoved
    wToken wSecret 1000 wDecoded rfl rfl
  exact h.1

/-- C2: when the identity-provider assertion fails verification, the
session-creation route succeeds off a carried session token that verifies
and is live in the store, returning that user's data flagged fallback; with
no cookie, or a cookie whose fallback check fails, it answers 401
Authentication failed. -/
theorem c2_fallback_on_provider_failure
    (fbVerify : String → Option DecodedIdToken) (idToken : String)
    (tok tok2 : Jwt) (db db2 : DB) (secret : String) (now salt : Nat)
    (sessionId : String) (ua ip : Option String) (freshId : String)
    (p : DecodedJwt) (u : UserDoc)
    (h1 : fbVerify idToken = none)
    (h2 : verifyJWT tok secret now = some p)
    (h3 : UserService.validateUserSession db (claimUid p.claims) tok now = true)
    (h4 : UserService.findByUid db (claimUid p.claims) = some u)
    (h5 : handleSessionFallback tok2 db2 secret now = none) :
    (sessionPOST fbVerify idToken (some tok) db secret now salt sessionId ua ip freshId).1
      = { status := 200, success := true, user := some (toUserView u), fallback := true }
    ∧ (sessionPOST fbVerify idToken (some tok2) db2 secret now salt sessionId ua ip freshId).1
      = { status := 401, success := false, error := some "Authentication failed" }
    ∧ (sessionPOST fbVerify idToken none db secret now salt sessionId ua ip freshId).1
      = { status := 401, success := false, error := some "Authentication failed" } := by
  have hfb : handleSessionFallback tok db secret now
      = some { status := 200, success := true, user := some (toUserView u), fallback := true } := by
    unfold handleSessionFallback
    rw [h2]
    dsimp only
    rw [h3]
    simp [h4]
  refine ⟨?_, ?_, ?_⟩
  · simp [sessionPOST, h1, hfb]
  · simp [sessionPOST, h1, h5]
  · simp [sessionPOST, h1]

/-- Witness for C2: fallback success on the fixture store, 401 on the empty
store. -/
theorem c2_fallback_on_provider_failure_witness :
    (sessionPOST (fun _ => none) "bad" (some wToken) wDb wSecret 1000 5 "s2"
        none none "m2").1
      = { status := 200, success := true, user := some (toUserView wUser), fallback := true } := by
  have h := c2_fallback_on_provider_failure (fun _ => none) "bad" wToken wToken
    wDb [] wSecret 1000 5 "s2" none none "m2" wDecoded wUser rfl rfl
    (by decide) rfl rfl
  exact h.1

/-- Concrete fixture for C5: a development environment whose configured
JWT secret is 5 characters, every other variable valid. -/
def c5DevInput : EnvInput :=
  { NODE_ENV := some "development",
    NEXT_PUBLIC_FIREBASE_API_KEY := some "k",
    NEXT_PUBLIC_FIREBASE_AUTH_DOMAIN := some "d",
    NEXT_PUBLIC_FIREBASE_PROJECT_ID := some "p",
    NEXT_PUBLIC_FIREBASE_STORAGE_BUCKET := some "b",
    NEXT_PUBLIC_FIREBASE_MESSAGING_SENDER_ID := some "s",
    NEXT_PUBLIC_FIREBASE_APP_ID := some "a",
    FIREBASE_SERVICE_ACCOUNT_KEY := some "svc",
    GOOGLE_CLIENT_ID := some "g", GOOGLE_CLIENT_SECRET := some "gs",
    GITHUB_CLIENT_ID := some "h", GITHUB_CLIENT_SECRET := some "hs",
    MONGODB_URI := some "mongodb://localhost:27017/app",
    JWT_SECRET := some "short",
    NEXT_PUBLIC_APP_URL := some "http://localhost:3000",
    EMAIL_USER := some "u", EMAIL_PASS := some "pw" }

/-- Counterexample to C5 as stated: with NODE_ENV=development and a
5-character JWT secret, validateEnv does not fail fast; the process starts
and the short configured secret passes through into the running Env. -/
theorem c5_counterexample_dev_starts_with_short_secret :
    validateEnv c5DevInput = EnvResult.ok (getDefaultEnv c5DevInput)
    ∧ (getDefaultEnv c5DevInput).JWT_SECRET = "short"
    ∧ (getDefaultEnv c5DevInput).JWT_SECRET.length < 32 :=
  ⟨rfl, rfl, by decide⟩

/-- C5 amended: the fail-fast on a sub-32-character JWT secret holds only
in production runtime (NODE_ENV=production with VERCEL or
RAILWAY_ENVIRONMENT set, so validation is not skipped as build time);
there validateEnv aborts startup. -/
theorem c5_amended_production_failfast (e : EnvInput) (s : String)
    (h1 : e.NODE_ENV = some "production")
    (h2 : jsTruthy e.VERCEL = true ∨ jsTruthy e.RAILWAY_ENVIRONMENT = true)
    (h3 : e.JWT_SECRET = some s) (h4 : s.length < 32) :
    validateEnv e = EnvResult.startupFailure := by
  have hbt : isBuildTime e = false := by
    unfold isBuildTime
    rcases h2 with h2 | h2 <;> simp [h2]
  have hjs : zMinLen 32 e.JWT_SECRET = false := by
    rw [h3]; unfold zMinLen; simp; omega
  have hsch : envSchemaOk e = false := by
    unfold envSchemaOk
    rw [hjs]
    simp
  simp [validateEnv, hbt, hsch, h1]

/-- Concrete fixture for C5 amended: production on a deploy host with the
same short secret. -/
def c5ProdInput : EnvInput :=
  { c5DevInput with NODE_ENV := some "production", VERCEL := some "1" }

/-- Witness for C5 amended at the production fixture. -/
theorem c5_amended_production_failfast_witness :
    validateEnv c5ProdInput = EnvResult.startupFailure :=
  c5_amended_production_failfast c5ProdInput "short" rfl (Or.inl rfl) rfl (by decide)

/-- C6 evaluated at the failing input: an unknown email gets the distinct
"No account found" failure, observably different from the success response,
so account existence leaks — the code contradicts the claimed
indistinguishability. -/
theorem c6_reset_request_leaks_account_existence :
    ResetTokenService.createResetRequest [] "ghost@example.com" wSecret 0 (fun _ _ _ => true)
      = { success := false, message := "No account found with this email address" }
    ∧ ResetTokenService.createResetRequest wDb "a@x.com" wSecret 0 (fun _ _ _ => true)
      = { success := true, message := "Password reset email sent successfully" }
    ∧ ResetTokenService.createResetRequest [] "ghost@example.com" wSecret 0 (fun _ _ _ => true)
      ≠ ResetTokenService.createResetRequest wDb "a@x.com" wSecret 0 (fun _ _ _ => true) :=
  ⟨rfl, rfl, by decide⟩

lemma upsertUser_miss (db : DB) (d : UserService.UpsertData) (now : Nat) (fid : String)
    (h : UserService.findByUid db d.uid = none) :
    UserService.upsertUser db d now fid
      = (db ++ [{ mongoId := fid, uid := d.uid, email := toLowerStr d.email, name := d.name,
                  provider := d.provider, photoURL := d.photoURL, createdAt := now,
                  lastSeen := now, sessions := [] }],
         { mongoId := fid, uid := d.uid, email := toLowerStr d.email, name := d.name,
           provider := d.provider, photoURL := d.photoURL, createdAt := now,
           lastSeen := now, sessions := [] }) := by
  unfold UserService.upsertUser
  rw [h]

lemma upsertUser_hit (db : DB) (d : UserService.UpsertData) (now : Nat) (fid : String)
    (u : UserDoc) (h : UserService.findByUid db d.uid = some u) :
    UserService.upsertUser db d now fid
      = (UserService.replaceFirst db d.uid
          { u with
            uid := d.uid, email := toLowerStr d.email, name := d.name,
            provider := d.provider, photoURL := d.photoURL, lastSeen := now },
         { u with
           uid := d.uid, email := toLowerStr d.email, name := d.name,
           provider := d.provider, photoURL := d.photoURL, lastSeen := now }) := by
  unfold UserService.upsertUser
  rw [h]

/-- C7: two upserts with the same uid and different emails leave exactly one
record for that uid, carrying the latest lowercased email, with sessions
and createdAt as the first upsert made them; and any upsert on an existing
uid rewrites only email, name, provider, photoURL and lastSeen, leaving the
record's sessions and createdAt (and identity) unchanged. -/
theorem c7_upsert_unique_and_frame
    (db db3 : DB) (d1 d2 d3 : UserService.UpsertData) (now1 now2 now3 : Nat)
    (fid1 fid2 fid3 : String) (u3 : UserDoc)
    (h0 : UserService.findByUid db d1.uid = none)
    (h1 : d2.uid = d1.uid)
    (h2 : UserService.findByUid db3 d3.uid = some u3) :
    countUid (UserService.upsertUser (UserService.upsertUser db d1 now1 fid1).1 d2 now2 fid2).1 d1.uid = 1
    ∧ UserService.findByUid
        (UserService.upsertUser (UserService.upsertUser db d1 now1 fid1).1 d2 now2 fid2).1 d1.uid
      = some (UserService.upsertUser (UserService.upsertUser db d1 now1 fid1).1 d2 now2 fid2).2
    ∧ (UserService.upsertUser (UserService.upsertUser db d1 now1 fid1).1 d2 now2 fid2).2.email
      = toLowerStr d2.email
    ∧ (UserService.upsertUser (UserService.upsertUser db d1 now1 fid1).1 d2 now2 fid2).2.sessions = []
    ∧ (UserService.upsertUser (UserService.upsertUser db d1 now1 fid1).1 d2 now2 fid2).2.createdAt = now1
    ∧ (UserService.upsertUser (UserService.upsertUser db d1 now1 fid1).1 d2 now2 fid2).2.lastSeen = now2
    ∧ (UserService.upsertUser db3 d3 now3 fid3).2.sessions = u3.sessions
    ∧ (UserService.upsertUser db3 d3 now3 fid3).2.createdAt = u3.createdAt
    ∧ (UserService.upsertUser db3 d3 now3 fid3).2.mongoId = u3.mongoId
    ∧ (UserService.upsertUser db3 d3 now3 fid3).2.email = toLowerStr d3.email
    ∧ (UserService.upsertUser db3 d3 now3 fid3).2.name = d3.name
    ∧ (UserService.upsertUser db3 d3 now3 fid3).2.provider = d3.provider
    ∧ (UserService.upsertUser db3 d3 now3 fid3).2.photoURL = d3.photoURL
    ∧ (UserService.upsertUser db3 d3 now3 fid3).2.lastSeen = now3 := by
  have e1 := upsertUser_miss db d1 now1 fid1 h0
  have hn : UserService.findByUid (UserService.upsertUser db d1 now1 fid1).1 d2.uid
      = some (UserService.upsertUser db d1 now1 fid1).2 := by
    rw [e1, h1]
    exact findByUid_append_fresh _ h0 rfl
  have e2 := upsertUser_hit _ d2 now2 fid2 _ hn
  have e3 := upsertUser_hit db3 d3 now3 fid3 u3 h2
  refine ⟨?_, ?_, ?_, ?_, ?_, ?_, ?_, ?_, ?_, ?_, ?_, ?_, ?_, ?_⟩
  · rw [e2]
    dsimp only
    rw [h1]
    rw [countUid_replaceFirst _ _ _ (by rw [e1])]
    rw [e1]
    dsimp only
    exact countUid_append_fresh _ h0 rfl
  · rw [e2]
    dsimp only
    rw [h1]
    have hn1 : UserService.findByUid (UserService.upsertUser db d1 now1 fid1).1 d1.uid
        = some (UserService.upsertUser db d1 now1 fid1).2 := by
      rw [← h1]
      exact hn
    exact findByUid_replaceFirst _ hn1 rfl
  · rw [e2]
  · rw [e2, e1]
  · rw [e2, e1]
  · rw [e2]
  · rw [e3]
  · rw [e3]
  · rw [e3]
  · rw [e3]
  · rw [e3]
  · rw [e3]
  · rw [e3]
  · rw [e3]

/-- Concrete upsert inputs for the C7 witness. -/
def wUp1 : UserService.UpsertData :=
  { uid := "u9", email := "A@X.com", provider := "email" }

/-- Second upsert input for the C7 witness: same uid, different email. -/
def wUp2 : UserService.UpsertData :=
  { uid := "u9", email := "B@Y.com", provider := "google" }

/-- Witness for C7: two upserts of uid u9 on an empty store leave one
record whose email is the lowercased latest value. -/
theorem c7_upsert_unique_and_frame_witness :
    countUid (UserService.upsertUser (UserService.upsertUser [] wUp1 5 "m7").1 wUp2 9 "m8").1 "u9" = 1 := by
  have h := c7_upsert_unique_and_frame [] wDb wUp1 wUp2
    { uid := "u1", email := "c@z.com", provider := "github" } 5 9 11 "m7" "m8" "m9"
    wUser rfl rfl rfl
  exact h.1

/-- C8: the refresh route answers 401 whenever the new assertion fails
verification, no matter what session cookie the request carries; and when
the assertion verifies but removing the old token's record errors, the
error is swallowed — the route still mints the new session, persists it
(the new token validates against the resulting store) and answers 200. -/
theorem c8_refresh_requires_assertion_and_swallows_removal
    (fbVerify fb2 : String → Option DecodedIdToken) (idToken idToken2 : String)
    (cookie : Option Jwt) (tok2 : Jwt) (db db2 : DB) (secret : String)
    (now salt : Nat) (sessionId : String) (ua ip : Option String)
    (d : DecodedIdToken) (p : DecodedJwt) (u : UserDoc) (msg : String)
    (h1 : fbVerify idToken = none)
    (h2 : fb2 idToken2 = some d)
    (h3 : verifyJWT tok2 secret now = some p)
    (h4 : UserService.removeUserSession db2 (claimUid p.claims) tok2 = .error msg)
    (h5 : UserService.findByUid db2 d.uid = some u) :
    (refreshPOST fbVerify idToken cookie db secret now salt sessionId ua ip).1
      = { status := 401, success := false, error := some "Invalid ID token" }
    ∧ (refreshPOST fb2 idToken2 (some tok2) db2 secret now salt sessionId ua ip).1.status = 200
    ∧ (refreshPOST fb2 idToken2 (some tok2) db2 secret now salt sessionId ua ip).1.success = true
    ∧ UserService.validateUserSession
        (refreshPOST fb2 idToken2 (some tok2) db2 secret now salt sessionId ua ip).2
        d.uid
        (signJWT { uid := some d.uid, email := some (jsOrStr d.email ""),
                   sessionId := some sessionId } secret now) now = true := by
  have hadd : UserService.addUserSession db2 d.uid
      (signJWT { uid := some d.uid, email := some (jsOrStr d.email ""),
                 sessionId := some sessionId } secret now)
      (getJWTExpiration now) ua ip salt now
      = .ok (UserService.replaceFirst db2 d.uid
          (u.addSession (signJWT { uid := some d.uid, email := some (jsOrStr d.email ""),
                                   sessionId := some sessionId } secret now)
            (getJWTExpiration now) ua ip salt now)) := by
    unfold UserService.addUserSession
    rw [h5]
  have hfind2 : UserService.findByUid
      (UserService.replaceFirst db2 d.uid
        (u.addSession (signJWT { uid := some d.uid, email := some (jsOrStr d.email ""),
                                 sessionId := some sessionId } secret now)
          (getJWTExpiration now) ua ip salt now)) d.uid
      = some (u.addSession (signJWT { uid := some d.uid, email := some (jsOrStr d.email ""),
                                      sessionId := some sessionId } secret now)
          (getJWTExpiration now) ua ip salt now) :=
    findByUid_replaceFirst _ h5 (by rw [addSession_uid]; exact findByUid_some_uid h5)
  have hev : refreshPOST fb2 idToken2 (some tok2) db2 secret now salt sessionId ua ip
      = ({ status := 200, success := true,
           user := some (toUserView
            (u.addSession (signJWT { uid := some d.uid, email := some (jsOrStr d.email ""),
                                     sessionId := some sessionId } secret now)
              (getJWTExpiration now) ua ip salt now)) },
         UserService.replaceFirst db2 d.uid
          (u.addSession (signJWT { uid := some d.uid, email := some (jsOrStr d.email ""),
                                   sessionId := some sessionId } secret now)
            (getJWTExpiration now) ua ip salt now)) := by
    unfold refreshPOST
    rw [h2]
    dsimp only
    rw [h3]
    dsimp only
    rw [h4]
    dsimp only
    rw [hadd]
    dsimp only
    rw [hfind2]
  refine ⟨by simp [refreshPOST, h1], ?_, ?_, ?_⟩
  · rw [hev]
  · rw [hev]
  · rw [hev]
    dsimp only
    unfold UserService.validateUserSession
    rw [hfind2]
    refine validateSession_addSession u _ _ ua ip salt now ?_
    unfold getJWTExpiration
    omega

/-- Concrete fixture: a decoded Firebase assertion for the fixture user. -/
def wIdTok : DecodedIdToken :=
  { uid := "u1", email := some "a@x.com" }

/-- Concrete fixture: a session token for an absent user u2, so removing
its record fails with "User not found". -/
def wOtherToken : Jwt :=
  signJWT { uid := some "u2" } wSecret 1000

/-- Witness for C8: on the fixture store, refresh with a failed removal
still answers 200. -/
theorem c8_refresh_requires_assertion_and_swallows_removal_witness :
    (refreshPOST (fun _ => some wIdTok) "t" (some wOtherToken) wDb wSecret
      1000 5 "s3" none none).1.status = 200 := by
  have h := c8_refresh_requires_assertion_and_swallows_removal
    (fun _ => none) (fun _ => some wIdTok) "t" "t" none wOtherToken [] wDb
    wSecret 1000 5 "s3" none none wIdTok
    { claims := { uid := some "u2" }, iss := some "firebase-auth-app",
      aud := some "firebase-auth-app-users", iat := 1000,
      exp := 1000 + JWT_EXPIRES_IN_SEC }
    wUser "User not found" rfl rfl rfl rfl rfl
  exact h.2.1

end FBAuth
